import Mathlib

/-!
# Verification of the merge-tool classification and comparison engine

Shallow embedding of `src/tools/compute_comparison_metrics.py`:

* `pyIn needle hay` models Python's substring test `needle in hay`;
* `classify` models the per-scenario branch of `ToolExecutionResult.confusion_matrix`
  (lines 69-79), and `confusion_matrix` the whole accumulation loop;
* `stepComparison` models the body of the per-scenario loop of
  `compute_comparison_metrics` (lines 122-213), and `compute_comparison_metrics`
  the loop over the scenario universe for one pair of tools.

Execution and comparison statuses are Python strings, so they are embedded as
`String`; tool output tables (Python dicts keyed by scenario name) are embedded
as association lists in insertion order, and dict iteration is a fold over that
list.
-/

/-- Character-list version of Python's startswith, used to build the substring test. -/
def firstCharsMatch : List Char → List Char → Bool
  | [], _ => true
  | _ :: _, [] => false
  | a :: as, b :: bs => a == b && firstCharsMatch as bs

/-- Substring containment on character lists: the needle occurs somewhere in the hay. -/
def hasSubChars (needle : List Char) : List Char → Bool
  | [] => firstCharsMatch needle []
  | b :: bs => firstCharsMatch needle (b :: bs) || hasSubChars needle bs

/-- Python's `needle in hay` on strings (substring containment). -/
def pyIn (needle hay : String) : Bool :=
  hasSubChars needle.data hay.data

/-- The five confusion-matrix buckets of `ToolExecutionResult.confusion_matrix`. -/
inductive Bucket
  | TP
  | TN
  | FP
  | FN
  | error
deriving DecidableEq, Repr

/-- A scenario's recorded status: the `(execution, comparison)` string pair. -/
abbrev ScenarioStatus := String × String

/-- One tool's output table: scenario name to status, in insertion order
(a Python dict with unique keys). -/
abbrev OutputTable := List (String × ScenarioStatus)

/-- The per-scenario branch of `ToolExecutionResult.confusion_matrix` (lines 72-79):
`made_merge = (execution == "SUCCESS")`; `"FAILED" in execution or "NO_OUTPUT" in
execution` routes to `error`, otherwise `made_merge` picks TN/FN by `comparison ==
"MATCH"`, and the remaining case picks TP/FP. -/
def classify (status : ScenarioStatus) : Bucket :=
  let execution := status.1
  let comparison := status.2
  let made_merge := execution = "SUCCESS"
  if pyIn "FAILED" execution || pyIn "NO_OUTPUT" execution then .error
  else if made_merge then (if comparison = "MATCH" then .TN else .FN)
  else (if comparison = "MATCH" then .TP else .FP)

/-- The accumulators of `confusion_matrix`: the `scenarios` lists and the
`results` counters, one per bucket. -/
structure ConfusionMatrix where
  scenTP : List String
  scenTN : List String
  scenFP : List String
  scenFN : List String
  scenError : List String
  cntTP : Nat
  cntTN : Nat
  cntFP : Nat
  cntFN : Nat
  cntError : Nat
deriving DecidableEq, Repr

/-- The empty accumulators (lines 50-63 of the source). -/
def ConfusionMatrix.empty : ConfusionMatrix :=
  ⟨[], [], [], [], [], 0, 0, 0, 0, 0⟩

/-- `scenarios[b]`: the scenario list of bucket `b`. -/
def ConfusionMatrix.scen (m : ConfusionMatrix) : Bucket → List String
  | .TP => m.scenTP
  | .TN => m.scenTN
  | .FP => m.scenFP
  | .FN => m.scenFN
  | .error => m.scenError

/-- `results[b]`: the counter of bucket `b`. -/
def ConfusionMatrix.cnt (m : ConfusionMatrix) : Bucket → Nat
  | .TP => m.cntTP
  | .TN => m.cntTN
  | .FP => m.cntFP
  | .FN => m.cntFN
  | .error => m.cntError

/-- `scenarios[matrix].append(scenario); results[matrix] += 1` (lines 81-82). -/
def addToMatrix (m : ConfusionMatrix) (scenario : String) : Bucket → ConfusionMatrix
  | .TP => { m with scenTP := m.scenTP ++ [scenario], cntTP := m.cntTP + 1 }
  | .TN => { m with scenTN := m.scenTN ++ [scenario], cntTN := m.cntTN + 1 }
  | .FP => { m with scenFP := m.scenFP ++ [scenario], cntFP := m.cntFP + 1 }
  | .FN => { m with scenFN := m.scenFN ++ [scenario], cntFN := m.cntFN + 1 }
  | .error => { m with scenError := m.scenError ++ [scenario], cntError := m.cntError + 1 }

/-- `ToolExecutionResult.confusion_matrix`: fold the per-scenario classification
over the tool's outputs (lines 69-82). -/
def confusion_matrix (outputs : OutputTable) : ConfusionMatrix :=
  outputs.foldl (fun m p => addToMatrix m p.1 (classify p.2)) ConfusionMatrix.empty

/-- The four pairwise relative-advantage metrics. -/
inductive Metric
  | aTP
  | aTN
  | aFP
  | aFN
deriving DecidableEq, Repr

/-- One tool's half of a pairwise comparison: the four counters and the four
`scenarios` lists (line 119-120 of the source). -/
structure ToolStats where
  aTP : Nat
  aTN : Nat
  aFP : Nat
  aFN : Nat
  scenATP : List String
  scenATN : List String
  scenAFP : List String
  scenAFN : List String
deriving DecidableEq, Repr

/-- The all-zero, all-empty stats a comparison starts from. -/
def ToolStats.empty : ToolStats :=
  ⟨0, 0, 0, 0, [], [], [], []⟩

/-- The counter stored for a metric. -/
def ToolStats.cnt (s : ToolStats) : Metric → Nat
  | .aTP => s.aTP
  | .aTN => s.aTN
  | .aFP => s.aFP
  | .aFN => s.aFN

/-- The `scenarios` list stored for a metric. -/
def ToolStats.scen (s : ToolStats) : Metric → List String
  | .aTP => s.scenATP
  | .aTN => s.scenATN
  | .aFP => s.scenAFP
  | .aFN => s.scenAFN

/-- `comparison[tool][metric] += 1; comparison[tool]["scenarios"][metric].append(scenario)`. -/
def addMetric (s : ToolStats) (scenario : String) : Metric → ToolStats
  | .aTP => { s with aTP := s.aTP + 1, scenATP := s.scenATP ++ [scenario] }
  | .aTN => { s with aTN := s.aTN + 1, scenATN := s.scenATN ++ [scenario] }
  | .aFP => { s with aFP := s.aFP + 1, scenAFP := s.scenAFP ++ [scenario] }
  | .aFN => { s with aFN := s.aFN + 1, scenAFN := s.scenAFN ++ [scenario] }

/-- The accumulator of one pairwise comparison: the stats of the first tool of the
pair (`tool_a`) and of the second (`tool_b`). -/
structure PairComparison where
  statsA : ToolStats
  statsB : ToolStats
deriving DecidableEq, Repr

/-- The comparison accumulator before any scenario is processed. -/
def PairComparison.empty : PairComparison :=
  ⟨ToolStats.empty, ToolStats.empty⟩

/-- `"aTN" if execution_status == "SUCCESS" else "aTP"`: the positive metric the
correct tool receives. -/
def awardPos (execution : String) : Metric :=
  if execution = "SUCCESS" then .aTN else .aTP

/-- `"aFN" if execution_status == "SUCCESS" else "aFP"`: the negative metric the
incorrect tool receives. -/
def awardNeg (execution : String) : Metric :=
  if execution = "SUCCESS" then .aFN else .aFP

/-- `outputs.get(scenario, ("UNKNOWN_EXECUTION", "NO_OUTPUT"))` (lines 123-124):
first entry with the key, else the default pair. -/
def lookupOutput : OutputTable → String → ScenarioStatus
  | [], _ => ("UNKNOWN_EXECUTION", "NO_OUTPUT")
  | (k, st) :: rest, scenario => if k = scenario then st else lookupOutput rest scenario

/-- The body of the per-scenario loop of `compute_comparison_metrics`
(lines 128-213), with `sa = (execution_status_a, comparison_status_a)` and
`sb = (execution_status_b, comparison_status_b)`:

* A failed and B did not (line 128): award B `awardPos` iff B matched, skip A;
* B failed and A did not (line 142): symmetric;
* same execution status (line 155): skip when the comparison statuses also agree,
  otherwise the matching side gets `awardPos` and the other `awardNeg`, decided by
  `comparison_status_a == "MATCH"`;
* different execution statuses (line 189): same award rule. -/
def stepComparison (c : PairComparison) (scenario : String)
    (sa sb : ScenarioStatus) : PairComparison :=
  let ea := sa.1
  let ca := sa.2
  let eb := sb.1
  let cb := sb.2
  if ea = "FAILED" ∧ ¬eb = "FAILED" then
    if cb = "MATCH" then
      { c with statsB := addMetric c.statsB scenario (awardPos eb) }
    else c
  else if eb = "FAILED" ∧ ¬ea = "FAILED" then
    if ca = "MATCH" then
      { c with statsA := addMetric c.statsA scenario (awardPos ea) }
    else c
  else if ea = eb then
    if ca = cb then c
    else if ca = "MATCH" then
      { statsA := addMetric c.statsA scenario (awardPos ea),
        statsB := addMetric c.statsB scenario (awardNeg eb) }
    else
      { statsA := addMetric c.statsA scenario (awardNeg ea),
        statsB := addMetric c.statsB scenario (awardPos eb) }
  else
    if ca = "MATCH" then
      { statsA := addMetric c.statsA scenario (awardPos ea),
        statsB := addMetric c.statsB scenario (awardNeg eb) }
    else
      { statsA := addMetric c.statsA scenario (awardNeg ea),
        statsB := addMetric c.statsB scenario (awardPos eb) }

/-- `compute_comparison_metrics` for one pair of tools: fold the per-scenario step
over the scenario universe (`expected_by_scenario.keys()`, line 122), fetching each
tool's status with the defaulting lookup. -/
def compute_comparison_metrics (outputsA outputsB : OutputTable)
    (scenarioKeys : List String) : PairComparison :=
  scenarioKeys.foldl
    (fun c scenario =>
      stepComparison c scenario (lookupOutput outputsA scenario) (lookupOutput outputsB scenario))
    PairComparison.empty

/-! ## Helper lemmas about the confusion matrix accumulation -/

/-- Appending to a bucket touches exactly that bucket's scenario list. -/
theorem addToMatrix_scen (m : ConfusionMatrix) (s : String) (b' b : Bucket) :
    (addToMatrix m s b').scen b = m.scen b ++ (if b' = b then [s] else []) := by
  cases b' <;> cases b <;> simp [addToMatrix, ConfusionMatrix.scen]

/-- Appending to a bucket touches exactly that bucket's counter. -/
theorem addToMatrix_cnt (m : ConfusionMatrix) (s : String) (b' b : Bucket) :
    (addToMatrix m s b').cnt b = m.cnt b + (if b' = b then 1 else 0) := by
  cases b' <;> cases b <;> simp [addToMatrix, ConfusionMatrix.cnt]

/-- The empty accumulator has empty scenario lists. -/
theorem empty_scen (b : Bucket) : ConfusionMatrix.empty.scen b = [] := by
  cases b <;> rfl

/-- The empty accumulator has zero counters. -/
theorem empty_cnt (b : Bucket) : ConfusionMatrix.empty.cnt b = 0 := by
  cases b <;> rfl

/-- Accumulating the classification loop extends each bucket list by exactly the
scenarios that classify into that bucket, in input order. -/
theorem confusion_foldl_scen (outputs : OutputTable) (m : ConfusionMatrix) (b : Bucket) :
    (outputs.foldl (fun acc p => addToMatrix acc p.1 (classify p.2)) m).scen b
      = m.scen b ++ (outputs.filter (fun p => decide (classify p.2 = b))).map Prod.fst := by
  induction outputs generalizing m with
  | nil => simp
  | cons p rest ih =>
    simp only [List.foldl_cons, List.filter_cons]
    rw [ih]
    by_cases hc : classify p.2 = b
    · simp [hc, addToMatrix_scen]
    · simp [hc, addToMatrix_scen]

/-- A bucket list of `confusion_matrix` holds precisely the input scenarios that
classify into that bucket. -/
theorem confusion_matrix_scen (outputs : OutputTable) (b : Bucket) :
    (confusion_matrix outputs).scen b
      = (outputs.filter (fun p => decide (classify p.2 = b))).map Prod.fst := by
  rw [confusion_matrix, confusion_foldl_scen, empty_scen, List.nil_append]

/-- Every recorded scenario lands in the bucket list of its classification. -/
theorem mem_confusion_scen (outputs : OutputTable) (s : String) (st : ScenarioStatus)
    (hmem : (s, st) ∈ outputs) :
    s ∈ (confusion_matrix outputs).scen (classify st) := by
  rw [confusion_matrix_scen]
  exact List.mem_map.mpr ⟨(s, st), List.mem_filter.mpr ⟨hmem, by simp⟩, rfl⟩

/-- The sum of the five counters of a confusion-matrix accumulator. -/
def totalCnt (m : ConfusionMatrix) : Nat :=
  m.cntTP + m.cntTN + m.cntFP + m.cntFN + m.cntError

/-- A single classification step raises the total count by one. -/
theorem totalCnt_add (m : ConfusionMatrix) (s : String) (b : Bucket) :
    totalCnt (addToMatrix m s b) = totalCnt m + 1 := by
  cases b <;> simp [addToMatrix, totalCnt] <;> omega

/-- The accumulation loop raises the total count by the number of scenarios. -/
theorem totalCnt_foldl (outputs : OutputTable) (m : ConfusionMatrix) :
    totalCnt (outputs.foldl (fun acc p => addToMatrix acc p.1 (classify p.2)) m)
      = totalCnt m + outputs.length := by
  induction outputs generalizing m with
  | nil => simp
  | cons p rest ih =>
    simp only [List.foldl_cons, List.length_cons]
    rw [ih, totalCnt_add]
    omega

/-! ## Helper lemmas about the pairwise comparator -/

/-- Identical status pairs fall through every awarding branch: the accumulator is
returned unchanged. -/
theorem stepComparison_same (c : PairComparison) (s : String) (st : ScenarioStatus) :
    stepComparison c s st st = c := by
  rcases st with ⟨e, c0⟩
  simp only [stepComparison]
  split_ifs <;> simp_all

/-- Comparing a tool's outputs against themselves leaves any accumulator unchanged. -/
theorem comparison_foldl_same (dA : OutputTable) (univ : List String) (c : PairComparison) :
    univ.foldl (fun acc s => stepComparison acc s (lookupOutput dA s) (lookupOutput dA s)) c
      = c := by
  induction univ generalizing c with
  | nil => rfl
  | cons s rest ih =>
    rw [List.foldl_cons, stepComparison_same]
    exact ih c

/-- A tool's stats are coherent when each metric's counter equals the length of its
scenario list. -/
def statsOk (t : ToolStats) : Prop :=
  ∀ m, t.cnt m = (t.scen m).length

/-- The zero stats are coherent. -/
theorem statsOk_empty : statsOk ToolStats.empty := by
  intro m
  cases m <;> rfl

/-- Awarding a metric keeps a tool's stats coherent. -/
theorem statsOk_add (t : ToolStats) (s : String) (m : Metric) (h : statsOk t) :
    statsOk (addMetric t s m) := by
  intro m'
  have h2 := h m'
  cases m <;> cases m' <;> simp_all [addMetric, ToolStats.cnt, ToolStats.scen]

/-- One pairwise step keeps both tools' stats coherent. -/
theorem stepComparison_ok (c : PairComparison) (s : String) (sa sb : ScenarioStatus)
    (hA : statsOk c.statsA) (hB : statsOk c.statsB) :
    statsOk (stepComparison c s sa sb).statsA ∧ statsOk (stepComparison c s sa sb).statsB := by
  simp only [stepComparison]
  split_ifs <;>
    exact ⟨by first | exact hA | exact statsOk_add _ _ _ hA,
           by first | exact hB | exact statsOk_add _ _ _ hB⟩

/-- The pairwise loop keeps both tools' stats coherent. -/
theorem comparison_foldl_ok (dA dB : OutputTable) (univ : List String) (c : PairComparison)
    (hA : statsOk c.statsA) (hB : statsOk c.statsB) :
    statsOk ((univ.foldl
      (fun acc s => stepComparison acc s (lookupOutput dA s) (lookupOutput dB s)) c).statsA) ∧
    statsOk ((univ.foldl
      (fun acc s => stepComparison acc s (lookupOutput dA s) (lookupOutput dB s)) c).statsB) := by
  induction univ generalizing c with
  | nil => exact ⟨hA, hB⟩
  | cons s rest ih =>
    simp only [List.foldl_cons]
    obtain ⟨h1, h2⟩ := stepComparison_ok c s (lookupOutput dA s) (lookupOutput dB s) hA hB
    exact ih _ h1 h2

/-- Counter version of `confusion_foldl_scen`. -/
theorem confusion_foldl_cnt (outputs : OutputTable) (m : ConfusionMatrix) (b : Bucket) :
    (outputs.foldl (fun acc p => addToMatrix acc p.1 (classify p.2)) m).cnt b
      = m.cnt b + (outputs.filter (fun p => decide (classify p.2 = b))).length := by
  induction outputs generalizing m with
  | nil => simp
  | cons p rest ih =>
    simp only [List.foldl_cons, List.filter_cons]
    rw [ih]
    by_cases hc : classify p.2 = b
    · simp [hc, addToMatrix_cnt]
      omega
    · simp [hc, addToMatrix_cnt]

/-- A bucket counter of `confusion_matrix` counts the input scenarios classifying
into that bucket. -/
theorem confusion_matrix_cnt (outputs : OutputTable) (b : Bucket) :
    (confusion_matrix outputs).cnt b
      = (outputs.filter (fun p => decide (classify p.2 = b))).length := by
  rw [confusion_matrix, confusion_foldl_cnt, empty_cnt, Nat.zero_add]

/-! ## Claims -/

/-- Claim C6: the confusion matrix sends `(SUCCESS, MATCH)` to TN,
`(SUCCESS, DIFFER)` to FN, `(CONFLICT, MATCH)` to TP, `(CONFLICT, DIFFER)` to FP,
and `(FAILED, c)` to `error` for every comparison status `c`. -/
theorem confusion_classification_table :
    classify ("SUCCESS", "MATCH") = Bucket.TN ∧
    classify ("SUCCESS", "DIFFER") = Bucket.FN ∧
    classify ("CONFLICT", "MATCH") = Bucket.TP ∧
    classify ("CONFLICT", "DIFFER") = Bucket.FP ∧
    ∀ c : String, classify ("FAILED", c) = Bucket.error :=
  ⟨by decide, by decide, by decide, by decide, fun _ => rfl⟩

/-- Claim C8: a scenario on which both tools have identical `(execution,
comparison)` pairs awards no pairwise bucket to either tool: the step returns the
accumulator unchanged, and a comparison of a tool's table against itself yields the
empty result, so the scenario appears in none of the eight metric lists. -/
theorem pairwise_identical_pairs_no_award :
    (∀ (c : PairComparison) (s : String) (st : ScenarioStatus),
      stepComparison c s st st = c) ∧
    (∀ (dA : OutputTable) (univ : List String),
      compute_comparison_metrics dA dA univ = PairComparison.empty) :=
  ⟨stepComparison_same,
   fun dA univ => comparison_foldl_same dA univ PairComparison.empty⟩

/-- Claim C10: in the confusion matrix each bucket's `results` counter equals the
length of its `scenarios` list, and in a pairwise comparison each metric counter of
either tool equals the length of the corresponding scenario list. -/
theorem bucket_counts_match_lists (outputs dA dB : OutputTable) (univ : List String) :
    (∀ b, (confusion_matrix outputs).cnt b = ((confusion_matrix outputs).scen b).length) ∧
    (∀ m, (compute_comparison_metrics dA dB univ).statsA.cnt m
        = ((compute_comparison_metrics dA dB univ).statsA.scen m).length) ∧
    (∀ m, (compute_comparison_metrics dA dB univ).statsB.cnt m
        = ((compute_comparison_metrics dA dB univ).statsB.scen m).length) := by
  refine ⟨fun b => ?_, ?_, ?_⟩
  · rw [confusion_matrix_cnt, confusion_matrix_scen, List.length_map]
  · exact (comparison_foldl_ok dA dB univ PairComparison.empty statsOk_empty statsOk_empty).1
  · exact (comparison_foldl_ok dA dB univ PairComparison.empty statsOk_empty statsOk_empty).2

/-- Claim C5: the five confusion-matrix buckets partition the input: the counters
sum to the number of scenarios, the bucket lists are pairwise disjoint (for tables
with unique scenario keys, as Python dicts have), and every input scenario is in
the bucket list of its classification. -/
theorem confusion_buckets_partition (outputs : OutputTable)
    (hnd : (outputs.map Prod.fst).Nodup) :
    ((confusion_matrix outputs).cnt Bucket.TP + (confusion_matrix outputs).cnt Bucket.TN
      + (confusion_matrix outputs).cnt Bucket.FP + (confusion_matrix outputs).cnt Bucket.FN
      + (confusion_matrix outputs).cnt Bucket.error = outputs.length) ∧
    (∀ (b b' : Bucket) (s : String),
      s ∈ (confusion_matrix outputs).scen b → s ∈ (confusion_matrix outputs).scen b' →
      b = b') ∧
    (∀ p ∈ outputs, p.1 ∈ (confusion_matrix outputs).scen (classify p.2)) := by
  refine ⟨?_, ?_, fun p hp => mem_confusion_scen outputs p.1 p.2 hp⟩
  · have hsum := totalCnt_foldl outputs ConfusionMatrix.empty
    simp only [totalCnt, confusion_matrix, ConfusionMatrix.cnt, ConfusionMatrix.empty] at hsum ⊢
    omega
  · intro b b' s hb hb'
    rw [confusion_matrix_scen] at hb hb'
    obtain ⟨p, hp, hps⟩ := List.mem_map.mp hb
    obtain ⟨q, hq, hqs⟩ := List.mem_map.mp hb'
    have hpf := List.mem_filter.mp hp
    have hqf := List.mem_filter.mp hq
    have hpq : p = q :=
      List.inj_on_of_nodup_map hnd hpf.1 hqf.1 (hps.trans hqs.symm)
    have h1 : classify p.2 = b := by simpa using hpf.2
    have h2 : classify q.2 = b' := by simpa using hqf.2
    rw [← h1, ← h2, hpq]

/-- Witness for C5 on a concrete two-scenario table. -/
theorem confusion_buckets_partition_witness :
    ((confusion_matrix [("s1", ("SUCCESS", "MATCH")), ("s2", ("CONFLICT", "DIFFER"))]).cnt Bucket.TP
      + (confusion_matrix [("s1", ("SUCCESS", "MATCH")), ("s2", ("CONFLICT", "DIFFER"))]).cnt Bucket.TN
      + (confusion_matrix [("s1", ("SUCCESS", "MATCH")), ("s2", ("CONFLICT", "DIFFER"))]).cnt Bucket.FP
      + (confusion_matrix [("s1", ("SUCCESS", "MATCH")), ("s2", ("CONFLICT", "DIFFER"))]).cnt Bucket.FN
      + (confusion_matrix [("s1", ("SUCCESS", "MATCH")), ("s2", ("CONFLICT", "DIFFER"))]).cnt Bucket.error
      = ([("s1", ("SUCCESS", "MATCH")), ("s2", ("CONFLICT", "DIFFER"))] : OutputTable).length) ∧
    (∀ (b b' : Bucket) (s : String),
      s ∈ (confusion_matrix [("s1", ("SUCCESS", "MATCH")), ("s2", ("CONFLICT", "DIFFER"))]).scen b →
      s ∈ (confusion_matrix [("s1", ("SUCCESS", "MATCH")), ("s2", ("CONFLICT", "DIFFER"))]).scen b' →
      b = b') ∧
    (∀ p ∈ ([("s1", ("SUCCESS", "MATCH")), ("s2", ("CONFLICT", "DIFFER"))] : OutputTable),
      p.1 ∈ (confusion_matrix [("s1", ("SUCCESS", "MATCH")), ("s2", ("CONFLICT", "DIFFER"))]).scen (classify p.2)) :=
  confusion_buckets_partition _ (by decide)

/-- Claim C7: on a scenario where tool A's execution is `FAILED` and tool B's is
not, tool A receives nothing; B receives exactly `aTN` when it is
`(SUCCESS, MATCH)`, exactly `aTP` when its comparison is `MATCH` with a
non-`SUCCESS` execution, and nothing at all when its comparison is not `MATCH`. -/
theorem pairwise_one_sided_failure (c : PairComparison) (s ca eb cb : String)
    (h : ¬eb = "FAILED") :
    ((stepComparison c s ("FAILED", ca) (eb, cb)).statsA = c.statsA) ∧
    ((eb = "SUCCESS" ∧ cb = "MATCH") →
      stepComparison c s ("FAILED", ca) (eb, cb)
        = { c with statsB := addMetric c.statsB s Metric.aTN }) ∧
    ((¬eb = "SUCCESS" ∧ cb = "MATCH") →
      stepComparison c s ("FAILED", ca) (eb, cb)
        = { c with statsB := addMetric c.statsB s Metric.aTP }) ∧
    (¬cb = "MATCH" →
      stepComparison c s ("FAILED", ca) (eb, cb) = c) := by
  refine ⟨?_, ?_, ?_, ?_⟩
  · simp only [stepComparison]
    split_ifs <;> simp_all
  · rintro ⟨hS, hM⟩
    simp only [stepComparison]
    split_ifs <;> simp_all [awardPos]
  · rintro ⟨hS, hM⟩
    simp only [stepComparison]
    split_ifs <;> simp_all [awardPos]
  · intro hM
    simp only [stepComparison]
    split_ifs <;> simp_all

/-- Witness for C7: B is `(SUCCESS, MATCH)` against a failed A, starting from the
empty accumulator. -/
theorem pairwise_one_sided_failure_witness :
    ((stepComparison PairComparison.empty "s1" ("FAILED", "DIFFER") ("SUCCESS", "MATCH")).statsA
      = PairComparison.empty.statsA) ∧
    ((("SUCCESS" : String) = "SUCCESS" ∧ ("MATCH" : String) = "MATCH") →
      stepComparison PairComparison.empty "s1" ("FAILED", "DIFFER") ("SUCCESS", "MATCH")
        = { PairComparison.empty with
              statsB := addMetric PairComparison.empty.statsB "s1" Metric.aTN }) ∧
    ((¬("SUCCESS" : String) = "SUCCESS" ∧ ("MATCH" : String) = "MATCH") →
      stepComparison PairComparison.empty "s1" ("FAILED", "DIFFER") ("SUCCESS", "MATCH")
        = { PairComparison.empty with
              statsB := addMetric PairComparison.empty.statsB "s1" Metric.aTP }) ∧
    (¬("MATCH" : String) = "MATCH" →
      stepComparison PairComparison.empty "s1" ("FAILED", "DIFFER") ("SUCCESS", "MATCH")
        = PairComparison.empty) :=
  pairwise_one_sided_failure PairComparison.empty "s1" "DIFFER" "SUCCESS" "MATCH" (by decide)

/-- Claim C9: on a scenario where the two tools' pairs differ, neither execution is
exactly `FAILED` and neither comparison is `MATCH`, the second tool still receives
the positive bucket (`aTN` if its execution is `SUCCESS`, else `aTP`) and the first
tool the negative one (`aFN` if its execution is `SUCCESS`, else `aFP`). -/
theorem pairwise_double_wrong_awards (c : PairComparison) (s ea ca eb cb : String)
    (hne : ¬(ea, ca) = ((eb, cb) : ScenarioStatus))
    (ha : ¬ea = "FAILED") (hb : ¬eb = "FAILED")
    (hca : ¬ca = "MATCH") (_hcb : ¬cb = "MATCH") :
    stepComparison c s (ea, ca) (eb, cb) =
      { statsA := addMetric c.statsA s (if ea = "SUCCESS" then Metric.aFN else Metric.aFP),
        statsB := addMetric c.statsB s (if eb = "SUCCESS" then Metric.aTN else Metric.aTP) } := by
  simp only [stepComparison, awardPos, awardNeg]
  rw [if_neg (fun hp => ha hp.1), if_neg (fun hp => hb hp.1)]
  by_cases he : ea = eb
  · have hcc : ¬ca = cb := fun hc => hne (by rw [he, hc])
    rw [if_pos he, if_neg hcc, if_neg hca]
  · rw [if_neg he, if_neg hca]

/-- Witness for C9: A is `(SUCCESS, DIFFER)`, B is `(CONFLICT, NO_OUTPUT)`. -/
theorem pairwise_double_wrong_awards_witness :
    stepComparison PairComparison.empty "s1" ("SUCCESS", "DIFFER") ("CONFLICT", "NO_OUTPUT") =
      { statsA := addMetric PairComparison.empty.statsA "s1"
          (if ("SUCCESS" : String) = "SUCCESS" then Metric.aFN else Metric.aFP),
        statsB := addMetric PairComparison.empty.statsB "s1"
          (if ("CONFLICT" : String) = "SUCCESS" then Metric.aTN else Metric.aTP) } :=
  pairwise_double_wrong_awards PairComparison.empty "s1" "SUCCESS" "DIFFER" "CONFLICT" "NO_OUTPUT"
    (by decide) (by decide) (by decide) (by decide) (by decide)

/-- Counterexample to claim C3: a scenario with execution status `UNKNOWN` is not
assigned to the `error` bucket; with comparison `DIFFER` it lands in `FP`. -/
theorem unknown_not_in_error_bucket :
    (confusion_matrix [("s1", ("UNKNOWN", "DIFFER"))]).scen Bucket.error = [] ∧
    (confusion_matrix [("s1", ("UNKNOWN", "DIFFER"))]).scen Bucket.FP = ["s1"] := by
  decide

/-- Claim C3 as amended: every scenario whose execution status contains `FAILED` or
`NO_OUTPUT` as a substring is assigned to the `error` bucket; an execution status of
exactly `UNKNOWN` is not, it is classified TP or FP by its comparison status. -/
theorem error_bucket_routing (outputs : OutputTable) (s e c0 : String)
    (hmem : (s, (e, c0)) ∈ outputs)
    (h : pyIn "FAILED" e = true ∨ pyIn "NO_OUTPUT" e = true) :
    s ∈ (confusion_matrix outputs).scen Bucket.error ∧
    classify ("UNKNOWN", c0) = (if c0 = "MATCH" then Bucket.TP else Bucket.FP) := by
  constructor
  · have hcls : classify (e, c0) = Bucket.error := by
      rcases h with h | h <;> simp [classify, h]
    have := mem_confusion_scen outputs s (e, c0) hmem
    rwa [hcls] at this
  · have h1 : (pyIn "FAILED" "UNKNOWN" || pyIn "NO_OUTPUT" "UNKNOWN") = false := by decide
    have h2 : ¬("UNKNOWN" : String) = "SUCCESS" := by decide
    by_cases hc : c0 = "MATCH" <;> simp [classify, h1, h2, hc]

/-- Witness for the amended C3 on a one-scenario table with an annotated failure. -/
theorem error_bucket_routing_witness :
    "s1" ∈ (confusion_matrix [("s1", ("FAILED (exit 1)", "DIFFER"))]).scen Bucket.error ∧
    classify ("UNKNOWN", "DIFFER") = (if ("DIFFER" : String) = "MATCH" then Bucket.TP else Bucket.FP) :=
  error_bucket_routing [("s1", ("FAILED (exit 1)", "DIFFER"))] "s1" "FAILED (exit 1)" "DIFFER"
    (by simp) (Or.inl (by decide))

/-- Counterexample to claim C4: with tool A at `("FAILED (exit 1)", "DIFFER")` and
tool B at `("SUCCESS", "MATCH")` the pairwise comparator does not treat A as the
failed side: A is awarded `aFP` (under exact `FAILED` it would receive nothing, as
the second conjunct shows). -/
theorem pairwise_substring_failed_counterexample :
    (compute_comparison_metrics [("s1", ("FAILED (exit 1)", "DIFFER"))]
      [("s1", ("SUCCESS", "MATCH"))] ["s1"]).statsA.aFP = 1 ∧
    (compute_comparison_metrics [("s1", ("FAILED", "DIFFER"))]
      [("s1", ("SUCCESS", "MATCH"))] ["s1"]).statsA.aFP = 0 := by
  decide

/-- Claim C4 as amended: substring normalization of `FAILED` holds only in the
confusion matrix, which routes any execution status containing `FAILED` to `error`;
the pairwise comparator compares against `FAILED` by exact equality, so a tool with
an annotated status such as `FAILED (exit 1)` facing a `(SUCCESS, MATCH)` opponent
is handled by the divergence rule and receives `aFP` while the opponent receives
`aTN`. -/
theorem substring_failed_only_in_matrix (e c0 s : String) (pc : PairComparison)
    (h : pyIn "FAILED" e = true) (hne : ¬e = "FAILED") :
    classify (e, c0) = Bucket.error ∧
    stepComparison pc s (e, "DIFFER") ("SUCCESS", "MATCH") =
      { statsA := addMetric pc.statsA s Metric.aFP,
        statsB := addMetric pc.statsB s Metric.aTN } := by
  have hS : ¬e = "SUCCESS" := by
    intro heq
    rw [heq] at h
    exact absurd h (by decide)
  constructor
  · simp [classify, h]
  · simp only [stepComparison, awardPos, awardNeg]
    split_ifs <;> simp_all

/-- Witness for the amended C4 at `e = "FAILED (exit 1)"`. -/
theorem substring_failed_only_in_matrix_witness :
    classify ("FAILED (exit 1)", "DIFFER") = Bucket.error ∧
    stepComparison PairComparison.empty "s1" ("FAILED (exit 1)", "DIFFER") ("SUCCESS", "MATCH") =
      { statsA := addMetric PairComparison.empty.statsA "s1" Metric.aFP,
        statsB := addMetric PairComparison.empty.statsB "s1" Metric.aTN } :=
  substring_failed_only_in_matrix "FAILED (exit 1)" "DIFFER" "s1" PairComparison.empty
    (by decide) (by decide)

/-! ## Anti-symmetry analysis of the pairwise comparator -/

/-- Swap the two tools' stats in a comparison accumulator. -/
def swapPair (c : PairComparison) : PairComparison :=
  ⟨c.statsB, c.statsA⟩

/-- Per-scenario condition under which the pairwise step is anti-symmetric: exactly
one side's execution is `FAILED`, or the two status pairs coincide, or exactly one
side's comparison is `MATCH`. -/
def symCondition (sa sb : ScenarioStatus) : Prop :=
  ((sa.1 = "FAILED" ∧ ¬sb.1 = "FAILED") ∨ (sb.1 = "FAILED" ∧ ¬sa.1 = "FAILED")) ∨
  sa = sb ∨
  ((sa.2 = "MATCH" ∧ ¬sb.2 = "MATCH") ∨ (sb.2 = "MATCH" ∧ ¬sa.2 = "MATCH"))

instance (sa sb : ScenarioStatus) : Decidable (symCondition sa sb) := by
  unfold symCondition
  infer_instance

/-- Under `symCondition`, one pairwise step with the tools swapped produces the
swapped accumulator. -/
theorem stepComparison_symm (c : PairComparison) (s : String) (sa sb : ScenarioStatus)
    (h : symCondition sa sb) :
    stepComparison (swapPair c) s sb sa = swapPair (stepComparison c s sa sb) := by
  rcases sa with ⟨ea, ca⟩
  rcases sb with ⟨eb, cb⟩
  simp only [symCondition] at h
  by_cases hA : ea = "FAILED" <;> by_cases hB : eb = "FAILED" <;>
    by_cases hE : ea = eb <;> by_cases hC : ca = cb <;>
    by_cases hMA : ca = "MATCH" <;> by_cases hMB : cb = "MATCH" <;>
    simp_all [stepComparison, swapPair, awardPos, awardNeg, eq_comm]

/-- Fold version of `stepComparison_symm` over a scenario universe. -/
theorem comparison_foldl_symm (dA dB : OutputTable) (univ : List String)
    (c : PairComparison)
    (h : ∀ s ∈ univ, symCondition (lookupOutput dA s) (lookupOutput dB s)) :
    univ.foldl
      (fun acc s => stepComparison acc s (lookupOutput dB s) (lookupOutput dA s))
      (swapPair c)
      = swapPair (univ.foldl
          (fun acc s => stepComparison acc s (lookupOutput dA s) (lookupOutput dB s)) c) := by
  induction univ generalizing c with
  | nil => rfl
  | cons s rest ih =>
    rw [List.foldl_cons, List.foldl_cons,
      stepComparison_symm c s _ _ (h s (by simp))]
    exact ih _ (fun t ht => h t (by simp [ht]))

/-- Counterexample to claim C1: with A at `(SUCCESS, MATCH)` and B at
`(CONFLICT, MATCH)` on the one scenario `s1`, `compare(A,B)` attributes `aTN` to A
while `compare(B,A)` attributes `aTN = 0` to A (there A gets `aFN` instead), so the
scenario-to-bucket attributions are not identical with the tool roles swapped. -/
theorem pairwise_not_antisymmetric :
    (compute_comparison_metrics [("s1", ("SUCCESS", "MATCH"))]
      [("s1", ("CONFLICT", "MATCH"))] ["s1"]).statsA.aTN = 1 ∧
    (compute_comparison_metrics [("s1", ("CONFLICT", "MATCH"))]
      [("s1", ("SUCCESS", "MATCH"))] ["s1"]).statsB.aTN = 0 ∧
    (compute_comparison_metrics [("s1", ("CONFLICT", "MATCH"))]
      [("s1", ("SUCCESS", "MATCH"))] ["s1"]).statsB.aFN = 1 := by
  decide

/-- Claim C1 as amended: the pairwise comparator is anti-symmetric on every
universe whose scenarios each satisfy `symCondition` (exactly one side failed, or
identical pairs, or exactly one side matched): `compare(B,A)` is `compare(A,B)`
with the two tools' stats swapped, hence every bucket count and scenario list of
either tool agrees with the role-swapped run. Without that condition
anti-symmetry fails, because both divergence branches consult only
`comparison_status_a == "MATCH"`. -/
theorem pairwise_antisymmetric_cond (dA dB : OutputTable) (univ : List String)
    (h : ∀ s ∈ univ, symCondition (lookupOutput dA s) (lookupOutput dB s)) :
    compute_comparison_metrics dB dA univ
      = swapPair (compute_comparison_metrics dA dB univ) := by
  have hf := comparison_foldl_symm dA dB univ PairComparison.empty h
  simpa [compute_comparison_metrics, swapPair, PairComparison.empty] using hf

/-- Witness for the amended C1: one-sided failure plus a genuinely divergent
scenario where exactly one side matches. -/
theorem pairwise_antisymmetric_cond_witness :
    compute_comparison_metrics
        [("s1", ("SUCCESS", "MATCH")), ("s2", ("FAILED", "NO_OUTPUT"))]
        [("s1", ("CONFLICT", "DIFFER")), ("s2", ("SUCCESS", "MATCH"))] ["s1", "s2"]
      = swapPair (compute_comparison_metrics
          [("s1", ("CONFLICT", "DIFFER")), ("s2", ("SUCCESS", "MATCH"))]
          [("s1", ("SUCCESS", "MATCH")), ("s2", ("FAILED", "NO_OUTPUT"))] ["s1", "s2"]) :=
  pairwise_antisymmetric_cond
    [("s1", ("CONFLICT", "DIFFER")), ("s2", ("SUCCESS", "MATCH"))]
    [("s1", ("SUCCESS", "MATCH")), ("s2", ("FAILED", "NO_OUTPUT"))]
    ["s1", "s2"] (by decide)

/-! ## Missing-entry behavior of the pairwise comparator -/

/-- A scenario absent from a table looks up to the default pair. -/
theorem lookupOutput_not_mem (dA : OutputTable) (s : String)
    (hmiss : ∀ p ∈ dA, ¬p.1 = s) :
    lookupOutput dA s = ("UNKNOWN_EXECUTION", "NO_OUTPUT") := by
  induction dA with
  | nil => rfl
  | cons p rest ih =>
    rcases p with ⟨k, st⟩
    simp only [lookupOutput]
    rw [if_neg (hmiss (k, st) (by simp))]
    exact ih (fun q hq => hmiss q (by simp [hq]))

/-- Counterexample to claim C2: tool A has no entry for `s1` while B recorded
`(SUCCESS, MATCH)`; the scenario still contributes pairwise buckets: B is awarded
`aTN` and A is awarded `aFP`. -/
theorem missing_entry_still_awards :
    (compute_comparison_metrics [] [("s1", ("SUCCESS", "MATCH"))] ["s1"]).statsB.aTN = 1 ∧
    (compute_comparison_metrics [] [("s1", ("SUCCESS", "MATCH"))] ["s1"]).statsA.aFP = 1 := by
  decide

/-- Claim C2 as amended: a scenario missing from tool A's table is substituted by
the default `("UNKNOWN_EXECUTION", "NO_OUTPUT")` pair and the (total) computation
proceeds; the scenario contributes no pairwise bucket exactly when the other
tool's execution is `FAILED` or the other tool's pair is also the default;
otherwise the divergence rules fire and award the present tool its positive
bucket and the absent tool `aFP`. -/
theorem missing_entry_default (dA dB : OutputTable) (s : String) (c : PairComparison)
    (hmiss : ∀ p ∈ dA, ¬p.1 = s) :
    lookupOutput dA s = ("UNKNOWN_EXECUTION", "NO_OUTPUT") ∧
    (((lookupOutput dB s).1 = "FAILED" ∨
        lookupOutput dB s = ("UNKNOWN_EXECUTION", "NO_OUTPUT")) →
      stepComparison c s (lookupOutput dA s) (lookupOutput dB s) = c) ∧
    ((¬(lookupOutput dB s).1 = "FAILED" ∧
        ¬lookupOutput dB s = ("UNKNOWN_EXECUTION", "NO_OUTPUT")) →
      stepComparison c s (lookupOutput dA s) (lookupOutput dB s) =
        { statsA := addMetric c.statsA s Metric.aFP,
          statsB := addMetric c.statsB s (awardPos (lookupOutput dB s).1) }) := by
  have hdef := lookupOutput_not_mem dA s hmiss
  rw [hdef]
  refine ⟨rfl, ?_, ?_⟩
  all_goals generalize hsb : lookupOutput dB s = sb
  all_goals rcases sb with ⟨eb, cb⟩
  all_goals have u1 : ¬("UNKNOWN_EXECUTION" : String) = "FAILED" := by decide
  all_goals have u2 : ¬("NO_OUTPUT" : String) = "MATCH" := by decide
  all_goals have u3 : ¬("UNKNOWN_EXECUTION" : String) = "SUCCESS" := by decide
  · rintro (hF | hD)
    · simp only at hF
      simp [stepComparison, hF, u1, u2]
    · rw [hD]
      exact stepComparison_same c s _
  · rintro ⟨hF, hD⟩
    simp only at hF
    by_cases hU : eb = "UNKNOWN_EXECUTION"
    · have hcb : ¬("NO_OUTPUT" : String) = cb := by
        intro hc
        exact hD (by rw [hU, ← hc])
      simp [stepComparison, awardNeg, hU, hF, hcb, u1, u2, u3]
    · have hU' : ¬("UNKNOWN_EXECUTION" : String) = eb := fun hq => hU hq.symm
      simp [stepComparison, awardNeg, hF, hU', u1, u2, u3]

/-- Witness for the amended C2: A missing, B at `(CONFLICT, MATCH)`. -/
theorem missing_entry_default_witness :
    lookupOutput [] "s1" = ("UNKNOWN_EXECUTION", "NO_OUTPUT") ∧
    (((lookupOutput [("s1", ("CONFLICT", "MATCH"))] "s1").1 = "FAILED" ∨
        lookupOutput [("s1", ("CONFLICT", "MATCH"))] "s1" = ("UNKNOWN_EXECUTION", "NO_OUTPUT")) →
      stepComparison PairComparison.empty "s1" (lookupOutput [] "s1")
          (lookupOutput [("s1", ("CONFLICT", "MATCH"))] "s1") = PairComparison.empty) ∧
    ((¬(lookupOutput [("s1", ("CONFLICT", "MATCH"))] "s1").1 = "FAILED" ∧
        ¬lookupOutput [("s1", ("CONFLICT", "MATCH"))] "s1" = ("UNKNOWN_EXECUTION", "NO_OUTPUT")) →
      stepComparison PairComparison.empty "s1" (lookupOutput [] "s1")
          (lookupOutput [("s1", ("CONFLICT", "MATCH"))] "s1") =
        { statsA := addMetric PairComparison.empty.statsA "s1" Metric.aFP,
          statsB := addMetric PairComparison.empty.statsB "s1"
            (awardPos (lookupOutput [("s1", ("CONFLICT", "MATCH"))] "s1").1) }) :=
  missing_entry_default [] [("s1", ("CONFLICT", "MATCH"))] "s1" PairComparison.empty
    (by simp)
